import Mathlib

/-!
Verification of the backend-session-client logic of `ChatWithDocs.tsx`.

The component's client state (transcript, document list, selection set,
input box, loading flags) is embedded as a Lean structure, and each
operation (`loadUserDocuments`, `onDrop`, `sendMessage`, `deleteDocument`,
`toggleDocumentSelection`, `selectAllDocuments`, `deselectAllDocuments`)
becomes a pure function from the old state (plus the backend's response,
passed in explicitly) to the new state together with a trace of observable
events: transcript appends, network requests issued, and timers scheduled.
-/

namespace ChatWithDocs

/-- JavaScript `a || b` for an optional string `a`: the empty string is
falsy, so it falls through to `b` (models `error.response?.data?.detail ||
error.message` and similar expressions). -/
def jsOr (a : Option String) (b : String) : String :=
  match a with
  | some st => if st.isEmpty then b else st
  | none => b

/-- JavaScript truthiness of an optional string: `none` (undefined) and the
empty string are falsy. -/
def truthyStr (a : Option String) : Option String :=
  match a with
  | some st => if st.isEmpty then none else some st
  | none => none

/-- `String.prototype.trim()`: strip leading and trailing whitespace
(an executable model of JavaScript's `trim`, working on the character
list). -/
def jsTrim (s : String) : String :=
  ⟨((s.data.dropWhile Char.isWhitespace).reverse.dropWhile Char.isWhitespace).reverse⟩

/-- The `Document` interface: every field is optional, and the backend may
use either naming variant (`doc_id`/`id`, `filename`/`name`). -/
structure Document where
  id : Option String := none
  doc_id : Option String := none
  name : Option String := none
  filename : Option String := none
  size : Option Nat := none
  type : Option String := none
  status : Option String := none
  total_chunks : Option Nat := none
  deriving Repr, DecidableEq

/-- A source citation attached to an `ai` message:
`{filename, text, similarity?}`. The similarity score is modelled as an
abstract rational. -/
structure Source where
  filename : String
  text : String
  similarity : Option ℚ := none
  deriving Repr, DecidableEq

/-- Transcript entry tag: `'user' | 'ai' | 'system'`. -/
inductive MessageType where
  | user
  | ai
  | system
  deriving Repr, DecidableEq

/-- The `Message` interface. `sources` is optional and only ever set on
`ai` entries. -/
structure Message where
  id : Nat
  type : MessageType
  content : String
  sources : Option (List Source) := none
  deriving Repr, DecidableEq

/-- The component's client-side state: the `useState` hooks of
`ChatWithDocs` (refs and purely visual state are out of scope). -/
structure ClientState where
  messages : List Message
  inputMessage : String
  isLoading : Bool
  uploadedDocuments : List Document
  isUploading : Bool
  selectedDocuments : List String
  userId : String
  deriving Repr, DecidableEq

/-- A network request issued by the client, with the fields the code puts
on the wire. -/
inductive Request where
  | listDocuments (userId : String)
  | upload (fileName : String) (userId : String)
  | deleteAll (userId : String)
  | query (user_id : String) (query : String) (doc_ids : List String) (top_k : Nat)
  deriving Repr, DecidableEq

/-- Observable events of one operation, in program order: a transcript
append, a network request being issued, or a deferred refresh being
scheduled (`setTimeout` delay in milliseconds). -/
inductive Event where
  | append (m : Message)
  | request (r : Request)
  | schedule (delayMs : Nat)
  deriving Repr, DecidableEq

/-- The requests contained in an event trace. -/
def requestsOf (tr : List Event) : List Request :=
  tr.filterMap fun e =>
    match e with
    | .request r => some r
    | _ => none

/-- The scheduled delays contained in an event trace. -/
def schedulesOf (tr : List Event) : List Nat :=
  tr.filterMap fun e =>
    match e with
    | .schedule d => some d
    | _ => none

/-- The appended messages contained in an event trace. -/
def appendsOf (tr : List Event) : List Message :=
  tr.filterMap fun e =>
    match e with
    | .append m => some m
    | _ => none

/-- A transport or backend error as the catch blocks see it:
`error.response?.data?.detail` (optional) and `error.message`. -/
structure BackendError where
  detail : Option String
  message : String
  deriving Repr, DecidableEq

/-- `error.response?.data?.detail || error.message`. -/
def errorText (e : BackendError) : String :=
  jsOr e.detail e.message

/-- Response body of the list-documents endpoint:
`{ documents: [...] }`, where the field may be missing/null. -/
structure ListResponse where
  documents : Option (List Document)
  deriving Repr, DecidableEq

/-- Response body of the upload endpoint: `{ filename: <backend id> }`. -/
structure UploadResponse where
  filename : String
  deriving Repr, DecidableEq

/-- Response body of the query endpoint:
`{ answer, sources? }`. -/
structure QueryResponse where
  answer : String
  sources : Option (List Source)
  deriving Repr, DecidableEq

/-- A file as seen by `onDrop` (`File` objects from the dropzone). -/
structure FileInfo where
  name : String
  size : Nat
  type : String
  deriving Repr, DecidableEq

/-- `config.ALLOWED_FILE_TYPES` from `config.ts`: MIME type mapped to its
expected extensions. -/
def ALLOWED_FILE_TYPES : List (String × List String) :=
  [("application/pdf", [".pdf"]),
   ("application/vnd.openxmlformats-officedocument.wordprocessingml.document", [".docx"]),
   ("text/plain", [".txt"]),
   ("text/markdown", [".md"])]

/-- A file passes the dropzone allow-list when its MIME type is a key of
`ALLOWED_FILE_TYPES`. -/
def allowedFile (f : FileInfo) : Bool :=
  (ALLOWED_FILE_TYPES.map Prod.fst).contains f.type

/-- `loadUserDocuments`: GET the session's documents; on success replace
the list with `response.data.documents || []`; on error only
`console.error` (no state change, nothing appended). -/
def loadUserDocuments (s : ClientState) (result : Except BackendError ListResponse) :
    ClientState × List Event :=
  let req := Event.request (Request.listDocuments s.userId)
  match result with
  | .ok resp => ({ s with uploadedDocuments := resp.documents.getD [] }, [req])
  | .error _ => (s, [req])

/-- The optimistic document record `onDrop` builds for one uploaded file:
`{ id: response.data.filename, name, size, type, status: 'processing' }`. -/
def mkUploadDoc (f : FileInfo) (resp : UploadResponse) : Document :=
  { id := some resp.filename
    name := some f.name
    size := some f.size
    type := some f.type
    status := some "processing" }

/-- First rejection among the per-file upload results; `Promise.all`
rejects with it (list order models settlement order). -/
def firstUploadError (results : List (Except BackendError UploadResponse)) :
    Option BackendError :=
  results.filterMap (fun r =>
    match r with
    | .error e => some e
    | .ok _ => none) |>.head?

/-- Successful responses among the per-file upload results. -/
def uploadOks (results : List (Except BackendError UploadResponse)) :
    List UploadResponse :=
  results.filterMap fun r =>
    match r with
    | .ok resp => some resp
    | .error _ => none

/-- The success system message of `onDrop`:
`📄 Uploaded N file(s): a, b. Processing in background...`. -/
def uploadedSysMessage (now : Nat) (files : List FileInfo) : Message :=
  { id := now
    type := .system
    content := "📄 Uploaded " ++ toString files.length ++ " file(s): " ++
      String.intercalate ", " (files.map FileInfo.name) ++
      ". Processing in background..." }

/-- The failure system message of `onDrop`. -/
def uploadErrorMessage (now : Nat) (e : BackendError) : Message :=
  { id := now
    type := .system
    content := "❌ Error uploading files: " ++ errorText e }

/-- `onDrop`: fire one upload request per accepted file, join them with
`Promise.all`. If every request fulfils, append one optimistic record per
file, append one system entry naming all files, and schedule a list
refresh after 2000 ms; if any request rejects, append one error system
entry and add no records. `isUploading` is set in a `finally`, so it ends
`false` either way. `results` holds each file's settled outcome, in order. -/
def onDrop (now : Nat) (s : ClientState) (files : List FileInfo)
    (results : List (Except BackendError UploadResponse)) :
    ClientState × List Event :=
  let reqEvents := files.map fun f => Event.request (Request.upload f.name s.userId)
  match firstUploadError results with
  | none =>
    let newFiles := List.zipWith mkUploadDoc files (uploadOks results)
    let msg := uploadedSysMessage now files
    ({ s with
        uploadedDocuments := s.uploadedDocuments ++ newFiles
        messages := s.messages ++ [msg]
        isUploading := false },
     reqEvents ++ [Event.append msg, Event.schedule 2000])
  | some e =>
    let msg := uploadErrorMessage now e
    ({ s with messages := s.messages ++ [msg], isUploading := false },
     reqEvents ++ [Event.append msg])

/-- The "please upload" precondition message of `sendMessage`. -/
def pleaseUploadMessage (now : Nat) : Message :=
  { id := now
    type := .system
    content := "📄 Please upload some documents first before asking questions." }

/-- The "please select" precondition message of `sendMessage`. -/
def pleaseSelectMessage (now : Nat) : Message :=
  { id := now
    type := .system
    content := "📋 Please select one or more documents to search in before asking questions." }

/-- The optimistic user entry `sendMessage` appends before querying. -/
def userMessage (now : Nat) (s : ClientState) : Message :=
  { id := now, type := .user, content := s.inputMessage }

/-- The query request `sendMessage` issues:
`{ user_id, query: inputMessage, doc_ids: selectedDocuments, top_k: 5 }`. -/
def queryRequest (s : ClientState) : Request :=
  Request.query s.userId s.inputMessage s.selectedDocuments 5

/-- The transcript entry appended once the query settles: on success an
`ai` entry with `response.data.answer` and `response.data.sources || []`;
on failure a system entry with the error detail. -/
def queryResponseMessage (now : Nat) (result : Except BackendError QueryResponse) :
    Message :=
  match result with
  | .ok resp =>
    { id := now + 1
      type := .ai
      content := resp.answer
      sources := some (resp.sources.getD []) }
  | .error e =>
    { id := now + 1
      type := .system
      content := "❌ Error getting response: " ++ errorText e }

/-- `sendMessage`: three guards run before any request. An
empty-after-trim input returns silently (`if (!inputMessage.trim())
return;`); an empty document list or an empty selection each append one
distinct system entry and return. Past the guards: append the user entry,
clear the input, issue the query, then append the response entry.
`isLoading` is reset in a `finally`, so it ends `false`. -/
def sendMessage (now : Nat) (s : ClientState)
    (result : Except BackendError QueryResponse) : ClientState × List Event :=
  if (jsTrim s.inputMessage).isEmpty then
    (s, [])
  else if s.uploadedDocuments.length == 0 then
    let msg := pleaseUploadMessage now
    ({ s with messages := s.messages ++ [msg] }, [Event.append msg])
  else if s.selectedDocuments.length == 0 then
    let msg := pleaseSelectMessage now
    ({ s with messages := s.messages ++ [msg] }, [Event.append msg])
  else
    let uMsg := userMessage now s
    let rMsg := queryResponseMessage now result
    ({ s with
        messages := s.messages ++ [uMsg, rMsg]
        inputMessage := ""
        isLoading := false },
     [Event.append uMsg, Event.request (queryRequest s), Event.append rMsg])

/-- The success system message of `deleteDocument`. -/
def deletedSysMessage (now : Nat) : Message :=
  { id := now
    type := .system
    content := "🗑️ All documents deleted successfully." }

/-- The failure system message of `deleteDocument`. -/
def deleteErrorMessage (now : Nat) (e : BackendError) : Message :=
  { id := now
    type := .system
    content := "❌ Error deleting documents: " ++ errorText e }

/-- `deleteDocument`: DELETE every document of the session; on success
clear the document list and the selection set and append one confirming
system entry; on failure leave both untouched and append one error
entry. -/
def deleteDocument (now : Nat) (s : ClientState)
    (result : Except BackendError Unit) : ClientState × List Event :=
  let req := Event.request (Request.deleteAll s.userId)
  match result with
  | .ok _ =>
    let msg := deletedSysMessage now
    ({ s with
        uploadedDocuments := []
        selectedDocuments := []
        messages := s.messages ++ [msg] },
     [req, Event.append msg])
  | .error e =>
    let msg := deleteErrorMessage now e
    ({ s with messages := s.messages ++ [msg] }, [req, Event.append msg])

/-- `toggleDocumentSelection`: remove every occurrence of the id when
present (`prev.filter(id => id !== docId)`), append it when absent. -/
def toggleDocumentSelection (docId : String) (s : ClientState) : ClientState :=
  { s with
      selectedDocuments :=
        if s.selectedDocuments.contains docId then
          s.selectedDocuments.filter fun i => i != docId
        else
          s.selectedDocuments ++ [docId] }

/-- The identifier the UI uses for a document: `doc.doc_id || doc.id`,
kept only when truthy (matching both `selectAllDocuments`'s
`.filter(Boolean)` and the card's `docId && toggle(docId)` guard). -/
def docKey (d : Document) : Option String :=
  match truthyStr d.doc_id with
  | some k => some k
  | none => truthyStr d.id

/-- The truthy identifiers of the current document list. -/
def listedKeys (s : ClientState) : List String :=
  s.uploadedDocuments.filterMap docKey

/-- `selectAllDocuments`: select every currently listed identifier. -/
def selectAllDocuments (s : ClientState) : ClientState :=
  { s with selectedDocuments := listedKeys s }

/-- `deselectAllDocuments`: empty the selection set. -/
def deselectAllDocuments (s : ClientState) : ClientState :=
  { s with selectedDocuments := [] }

/-- The Clear All button's `disabled` prop:
`uploadedDocuments.length === 0`. -/
def clearAllDisabled (s : ClientState) : Bool :=
  s.uploadedDocuments.length == 0

/-- The selection invariant of the spec: every member of the selection set
corresponds to a currently listed document. -/
def selectionInvariant (s : ClientState) : Prop :=
  ∀ id ∈ s.selectedDocuments, id ∈ listedKeys s

instance (s : ClientState) : Decidable (selectionInvariant s) := by
  unfold selectionInvariant
  infer_instance

end ChatWithDocs

namespace ChatWithDocs

/-- C5: the delete-all operation is atomic on client state — on success it
clears the document list and the selection set and appends exactly one
confirming system entry; on failure it leaves both untouched and appends
one error entry; and the Clear All control is disabled exactly when the
document list is empty. -/
theorem deleteDocument_atomic (now : Nat) (s : ClientState) (e : BackendError) :
    (deleteDocument now s (.ok ())).1 =
      { s with
          uploadedDocuments := []
          selectedDocuments := []
          messages := s.messages ++ [deletedSysMessage now] }
  ∧ (deleteDocument now s (.error e)).1 =
      { s with messages := s.messages ++ [deleteErrorMessage now e] }
  ∧ (clearAllDisabled s = true ↔ s.uploadedDocuments = []) := by
  refine ⟨rfl, rfl, ?_⟩
  simp [clearAllDisabled, List.length_eq_zero]

/-- C6: the list-documents operation overwrites the document list
wholesale on success and changes nothing else; on error the whole state is
unchanged; in both cases nothing is appended to the transcript. -/
theorem loadUserDocuments_frame (s : ClientState) (docs : Option (List Document))
    (e : BackendError) :
    (loadUserDocuments s (.ok ⟨docs⟩)).1 = { s with uploadedDocuments := docs.getD [] }
  ∧ (loadUserDocuments s (.error e)).1 = s
  ∧ appendsOf (loadUserDocuments s (.ok ⟨docs⟩)).2 = []
  ∧ appendsOf (loadUserDocuments s (.error e)).2 = [] :=
  ⟨rfl, rfl, rfl, rfl⟩

/-- C9: the transcript is append-only — every operation either leaves the
message list unchanged or extends it at the end, so existing entries and
their order are preserved. -/
theorem transcript_append_only (now : Nat) (s : ClientState)
    (files : List FileInfo) (ru : List (Except BackendError UploadResponse))
    (rl : Except BackendError ListResponse) (rq : Except BackendError QueryResponse)
    (rd : Except BackendError Unit) (docId : String) :
    (∃ t, (loadUserDocuments s rl).1.messages = s.messages ++ t)
  ∧ (∃ t, (onDrop now s files ru).1.messages = s.messages ++ t)
  ∧ (∃ t, (sendMessage now s rq).1.messages = s.messages ++ t)
  ∧ (∃ t, (deleteDocument now s rd).1.messages = s.messages ++ t)
  ∧ (toggleDocumentSelection docId s).messages = s.messages
  ∧ (selectAllDocuments s).messages = s.messages
  ∧ (deselectAllDocuments s).messages = s.messages := by
  refine ⟨?_, ?_, ?_, ?_, rfl, rfl, rfl⟩
  · cases rl with
    | ok resp => exact ⟨[], by simp [loadUserDocuments]⟩
    | error e => exact ⟨[], by simp [loadUserDocuments]⟩
  · rcases h : firstUploadError ru with _ | e
    · exact ⟨[uploadedSysMessage now files], by simp [onDrop, h]⟩
    · exact ⟨[uploadErrorMessage now e], by simp [onDrop, h]⟩
  · unfold sendMessage
    split
    · exact ⟨[], (List.append_nil _).symm⟩
    · split
      · exact ⟨[pleaseUploadMessage now], rfl⟩
      · split
        · exact ⟨[pleaseSelectMessage now], rfl⟩
        · exact ⟨[userMessage now s, queryResponseMessage now rq], rfl⟩
  · cases rd with
    | ok u => exact ⟨[deletedSysMessage now], rfl⟩
    | error e => exact ⟨[deleteErrorMessage now e], rfl⟩

/-- The selection set after a toggle, split on membership. -/
theorem toggleDocumentSelection_selected (s : ClientState) (docId : String) :
    (toggleDocumentSelection docId s).selectedDocuments =
      if docId ∈ s.selectedDocuments then
        s.selectedDocuments.filter fun i => i != docId
      else
        s.selectedDocuments ++ [docId] := by
  simp [toggleDocumentSelection]

/-- C10: toggling a document id is an involution on set membership — two
toggles restore the original membership; one toggle appends the id when
absent and removes every occurrence when present. -/
theorem toggleDocumentSelection_involution (s : ClientState) (docId : String) :
    (∀ y, y ∈ (toggleDocumentSelection docId (toggleDocumentSelection docId s)).selectedDocuments
        ↔ y ∈ s.selectedDocuments)
  ∧ (docId ∉ s.selectedDocuments →
      (toggleDocumentSelection docId s).selectedDocuments = s.selectedDocuments ++ [docId])
  ∧ (docId ∈ s.selectedDocuments →
      (toggleDocumentSelection docId s).selectedDocuments
        = s.selectedDocuments.filter fun i => i != docId) := by
  refine ⟨?_, ?_, ?_⟩
  · intro y
    by_cases h : docId ∈ s.selectedDocuments
    · have h1 : (toggleDocumentSelection docId s).selectedDocuments
          = s.selectedDocuments.filter fun i => i != docId := by
        rw [toggleDocumentSelection_selected]
        exact if_pos h
      have h2 : docId ∉ s.selectedDocuments.filter fun i => i != docId := by
        simp [List.mem_filter]
      have h3 : (toggleDocumentSelection docId (toggleDocumentSelection docId s)).selectedDocuments
          = (s.selectedDocuments.filter fun i => i != docId) ++ [docId] := by
        rw [toggleDocumentSelection_selected, h1, if_neg h2]
      rw [h3]
      simp only [List.mem_append, List.mem_filter, List.mem_singleton, bne_iff_ne, ne_eq]
      constructor
      · rintro (⟨hy, _⟩ | rfl)
        · exact hy
        · exact h
      · intro hy
        by_cases hyx : y = docId
        · exact Or.inr hyx
        · exact Or.inl ⟨hy, hyx⟩
    · have h1 : (toggleDocumentSelection docId s).selectedDocuments
          = s.selectedDocuments ++ [docId] := by
        rw [toggleDocumentSelection_selected]
        exact if_neg h
      have hmem : docId ∈ s.selectedDocuments ++ [docId] := by
        simp
      have h3 : (toggleDocumentSelection docId (toggleDocumentSelection docId s)).selectedDocuments
          = (s.selectedDocuments ++ [docId]).filter fun i => i != docId := by
        rw [toggleDocumentSelection_selected, h1, if_pos hmem]
      rw [h3]
      simp only [List.mem_filter, List.mem_append, List.mem_singleton, bne_iff_ne, ne_eq]
      constructor
      · rintro ⟨hy | rfl, hne⟩
        · exact hy
        · exact absurd rfl hne
      · intro hy
        exact ⟨Or.inl hy, fun e => h (e ▸ hy)⟩
  · intro h
    rw [toggleDocumentSelection_selected]
    exact if_neg h
  · intro h
    rw [toggleDocumentSelection_selected]
    exact if_pos h

end ChatWithDocs

namespace ChatWithDocs

/-- A concrete document with a backend id, used in concrete scenarios. -/
def docD1 : Document := { doc_id := some "d1", filename := some "a.pdf" }

/-- A concrete state whose input is whitespace-only while documents exist
and one is selected: only precondition (1) of the ask-a-question operation
is violated. -/
def stWsInput : ClientState :=
  { messages := []
    inputMessage := "   "
    isLoading := false
    uploadedDocuments := [docD1]
    isUploading := false
    selectedDocuments := ["d1"]
    userId := "user_1" }

/-- C1 (counterexample): with whitespace-only input (and documents
present, one selected), `sendMessage` violates precondition (1) yet
appends NO system transcript entry at all — it returns silently — so the
claim that every precondition failure appends exactly one system message
is false. -/
theorem sendMessage_emptyInput_silent_cex :
    (jsTrim stWsInput.inputMessage).isEmpty = true
  ∧ sendMessage 0 stWsInput (.error ⟨none, "network error"⟩) = (stWsInput, [])
  ∧ (sendMessage 0 stWsInput (.error ⟨none, "network error"⟩)).1.messages.length
      ≠ stWsInput.messages.length + 1 := by
  refine ⟨rfl, rfl, by decide⟩

/-- C1 (amended): precondition failures (2) (no documents) and (3)
(nothing selected) each append exactly one distinct system entry and issue
no request; precondition failure (1) (input empty after trimming) returns
silently — no transcript entry and no request. -/
theorem sendMessage_precondition_failures (now : Nat) (s : ClientState)
    (r : Except BackendError QueryResponse) :
    ((jsTrim s.inputMessage).isEmpty = true →
      sendMessage now s r = (s, []))
  ∧ ((jsTrim s.inputMessage).isEmpty = false → s.uploadedDocuments = [] →
      (sendMessage now s r).1.messages = s.messages ++ [pleaseUploadMessage now]
      ∧ (sendMessage now s r).2 = [Event.append (pleaseUploadMessage now)]
      ∧ requestsOf (sendMessage now s r).2 = [])
  ∧ ((jsTrim s.inputMessage).isEmpty = false → s.uploadedDocuments ≠ [] →
      s.selectedDocuments = [] →
      (sendMessage now s r).1.messages = s.messages ++ [pleaseSelectMessage now]
      ∧ (sendMessage now s r).2 = [Event.append (pleaseSelectMessage now)]
      ∧ requestsOf (sendMessage now s r).2 = []) := by
  refine ⟨?_, ?_, ?_⟩
  · intro h1
    simp [sendMessage, h1]
  · intro h1 h2
    simp [sendMessage, h1, h2, requestsOf]
  · intro h1 h2 h3
    have hb2 : (s.uploadedDocuments.length == 0) = false := by
      simp [List.length_eq_zero]
      exact h2
    simp [sendMessage, h1, hb2, h3, requestsOf]

/-- A concrete state with no documents and non-empty input. -/
def stNoDocs : ClientState :=
  { messages := []
    inputMessage := "hi"
    isLoading := false
    uploadedDocuments := []
    isUploading := false
    selectedDocuments := []
    userId := "user_1" }

/-- A concrete state with a document but nothing selected. -/
def stNoneSelected : ClientState :=
  { messages := []
    inputMessage := "hi"
    isLoading := false
    uploadedDocuments := [docD1]
    isUploading := false
    selectedDocuments := []
    userId := "user_1" }

/-- C1 (witness): the amended precondition behavior at concrete states. -/
theorem sendMessage_precondition_failures_witness :
    sendMessage 0 stWsInput (.error ⟨none, "e"⟩) = (stWsInput, [])
  ∧ (sendMessage 0 stNoDocs (.error ⟨none, "e"⟩)).1.messages
      = stNoDocs.messages ++ [pleaseUploadMessage 0]
  ∧ (sendMessage 0 stNoneSelected (.error ⟨none, "e"⟩)).1.messages
      = stNoneSelected.messages ++ [pleaseSelectMessage 0] :=
  ⟨(sendMessage_precondition_failures 0 stWsInput (.error ⟨none, "e"⟩)).1 (by decide),
   ((sendMessage_precondition_failures 0 stNoDocs (.error ⟨none, "e"⟩)).2.1
      (by decide) (by decide)).1,
   ((sendMessage_precondition_failures 0 stNoneSelected (.error ⟨none, "e"⟩)).2.2
      (by decide) (by decide) (by decide)).1⟩

/-- C2: when any file's upload request fails, the whole batch fails — all
per-file requests are still issued up front, exactly one system entry
carrying the error detail (or transport message) of the first rejection is
appended, and no document records are added; no refresh is scheduled. -/
theorem onDrop_failure_batch (now : Nat) (s : ClientState) (files : List FileInfo)
    (ru : List (Except BackendError UploadResponse)) (e : BackendError)
    (he : firstUploadError ru = some e) :
    (onDrop now s files ru).1.uploadedDocuments = s.uploadedDocuments
  ∧ (onDrop now s files ru).1.messages = s.messages ++ [uploadErrorMessage now e]
  ∧ (onDrop now s files ru).1.selectedDocuments = s.selectedDocuments
  ∧ (onDrop now s files ru).2
      = (files.map fun f => Event.request (Request.upload f.name s.userId))
          ++ [Event.append (uploadErrorMessage now e)]
  ∧ schedulesOf (onDrop now s files ru).2 = [] := by
  refine ⟨?_, ?_, ?_, ?_, ?_⟩ <;> simp [onDrop, he, schedulesOf, List.filterMap_eq_nil_iff]

/-- C2 (witness): a two-file batch whose second request fails adds no
records and appends exactly the error entry. -/
theorem onDrop_failure_batch_witness :
    (onDrop 7 stNoDocs [⟨"a.pdf", 10, "application/pdf"⟩, ⟨"b.txt", 5, "text/plain"⟩]
        [.ok ⟨"fa"⟩, .error ⟨some "boom", "req failed"⟩]).1.uploadedDocuments
      = stNoDocs.uploadedDocuments
  ∧ (onDrop 7 stNoDocs [⟨"a.pdf", 10, "application/pdf"⟩, ⟨"b.txt", 5, "text/plain"⟩]
        [.ok ⟨"fa"⟩, .error ⟨some "boom", "req failed"⟩]).1.messages
      = stNoDocs.messages ++ [uploadErrorMessage 7 ⟨some "boom", "req failed"⟩] :=
  ⟨(onDrop_failure_batch 7 stNoDocs _ _ ⟨some "boom", "req failed"⟩ (by decide)).1,
   (onDrop_failure_batch 7 stNoDocs _ _ ⟨some "boom", "req failed"⟩ (by decide)).2.1⟩

end ChatWithDocs

namespace ChatWithDocs

/-- When no upload request fails, every result is a success, so the list
of successful responses has the batch's full length. -/
theorem uploadOks_length_of_no_error (ru : List (Except BackendError UploadResponse))
    (hok : firstUploadError ru = none) : (uploadOks ru).length = ru.length := by
  induction ru with
  | nil => rfl
  | cons r t ih =>
    cases r with
    | ok resp =>
      have ht : firstUploadError t = none := by
        simpa [firstUploadError] using hok
      simp [uploadOks, ih ht]
      have := ih ht
      simpa [uploadOks] using this
    | error e =>
      simp [firstUploadError] at hok

/-- C4: a fully successful, non-empty, allow-listed batch appends exactly
one optimistic record per file — each with status "processing" and id
taken from the response's `filename` — appends exactly one system entry
naming all the files, and schedules exactly one refresh after 2000 ms. -/
theorem onDrop_success_optimistic (now : Nat) (s : ClientState) (files : List FileInfo)
    (ru : List (Except BackendError UploadResponse))
    (hok : firstUploadError ru = none)
    (hlen : ru.length = files.length)
    (_hne : files ≠ [])
    (_hallow : ∀ f ∈ files, allowedFile f = true) :
    (onDrop now s files ru).1.uploadedDocuments
      = s.uploadedDocuments ++ List.zipWith (fun f r =>
          { id := some r.filename
            name := some f.name
            size := some f.size
            type := some f.type
            status := some "processing" : Document }) files (uploadOks ru)
  ∧ (List.zipWith mkUploadDoc files (uploadOks ru)).length = files.length
  ∧ (onDrop now s files ru).1.messages = s.messages ++ [uploadedSysMessage now files]
  ∧ (uploadedSysMessage now files).type = .system
  ∧ schedulesOf (onDrop now s files ru).2 = [2000]
  ∧ (onDrop now s files ru).1.selectedDocuments = s.selectedDocuments := by
  refine ⟨?_, ?_, ?_, rfl, ?_, ?_⟩
  · simp only [onDrop, hok]
    rfl
  · simp [List.length_zipWith, uploadOks_length_of_no_error ru hok, hlen]
  · simp [onDrop, hok]
  · simp [onDrop, hok, schedulesOf, List.filterMap_append, List.filterMap_eq_nil_iff]
  · simp [onDrop, hok]

/-- C4 (witness): uploading `a.pdf` and `b.txt` with both requests
succeeding appends the two optimistic records. -/
theorem onDrop_success_optimistic_witness :
    (onDrop 3 stNoDocs [⟨"a.pdf", 10000, "application/pdf"⟩, ⟨"b.txt", 500, "text/plain"⟩]
        [.ok ⟨"fa"⟩, .ok ⟨"fb"⟩]).1.uploadedDocuments
      = stNoDocs.uploadedDocuments ++
        [{ id := some "fa", name := some "a.pdf", size := some 10000,
           type := some "application/pdf", status := some "processing" },
         { id := some "fb", name := some "b.txt", size := some 500,
           type := some "text/plain", status := some "processing" }]
  ∧ schedulesOf (onDrop 3 stNoDocs
        [⟨"a.pdf", 10000, "application/pdf"⟩, ⟨"b.txt", 500, "text/plain"⟩]
        [.ok ⟨"fa"⟩, .ok ⟨"fb"⟩]).2 = [2000] := by
  have h := onDrop_success_optimistic 3 stNoDocs
    [⟨"a.pdf", 10000, "application/pdf"⟩, ⟨"b.txt", 500, "text/plain"⟩]
    [.ok ⟨"fa"⟩, .ok ⟨"fb"⟩] (by decide) (by decide) (by decide)
    (by decide)
  exact ⟨h.1, h.2.2.2.2.1⟩

end ChatWithDocs

namespace ChatWithDocs

/-- C7: once every precondition passes, the query carries exactly
`user_id`, the question text, the selection set, and `top_k = 5`; on
success one `ai` entry is appended with the response's `answer` and its
`sources` (defaulting to `[]` when absent); on failure one system entry is
appended with the backend's `detail` or the transport message. -/
theorem sendMessage_query_contract (now : Nat) (s : ClientState)
    (resp : QueryResponse) (e : BackendError)
    (h1 : (jsTrim s.inputMessage).isEmpty = false)
    (h2 : s.uploadedDocuments ≠ [])
    (h3 : s.selectedDocuments ≠ []) :
    requestsOf (sendMessage now s (.ok resp)).2
      = [Request.query s.userId s.inputMessage s.selectedDocuments 5]
  ∧ (sendMessage now s (.ok resp)).1.messages
      = s.messages ++ [userMessage now s,
          { id := now + 1
            type := .ai
            content := resp.answer
            sources := some (resp.sources.getD []) }]
  ∧ (sendMessage now s (.error e)).1.messages
      = s.messages ++ [userMessage now s,
          { id := now + 1
            type := .system
            content := "❌ Error getting response: " ++ jsOr e.detail e.message }] := by
  have hb2 : (s.uploadedDocuments.length == 0) = false := by
    simp [List.length_eq_zero]
    exact h2
  have hb3 : (s.selectedDocuments.length == 0) = false := by
    simp [List.length_eq_zero]
    exact h3
  refine ⟨?_, ?_, ?_⟩ <;>
    simp [sendMessage, h1, hb2, hb3, requestsOf, queryRequest, queryResponseMessage,
      userMessage, errorText]

/-- A concrete state ready to query: non-empty input, one document listed
and selected. -/
def stReady : ClientState :=
  { messages := []
    inputMessage := "What is the summary?"
    isLoading := false
    uploadedDocuments := [docD1]
    isUploading := false
    selectedDocuments := ["d1"]
    userId := "user_1" }

/-- C7 (witness): the query contract at a concrete ready state and
concrete responses. -/
theorem sendMessage_query_contract_witness :
    requestsOf (sendMessage 9 stReady (.ok ⟨"It is a report.", none⟩)).2
      = [Request.query "user_1" "What is the summary?" ["d1"] 5]
  ∧ (sendMessage 9 stReady (.ok ⟨"It is a report.", none⟩)).1.messages
      = stReady.messages ++ [userMessage 9 stReady,
          { id := 10, type := .ai, content := "It is a report.", sources := some [] }] := by
  have h := sendMessage_query_contract 9 stReady ⟨"It is a report.", none⟩
    ⟨none, "err"⟩ (by decide) (by decide) (by decide)
  exact ⟨h.1, h.2.1⟩

/-- C8: with the preconditions satisfied, the optimistic user entry is
appended strictly before the query request is issued, and the response
entry (ai or system) comes after both — in the event trace and in the
final transcript. -/
theorem sendMessage_user_entry_first (now : Nat) (s : ClientState)
    (r : Except BackendError QueryResponse)
    (h1 : (jsTrim s.inputMessage).isEmpty = false)
    (h2 : s.uploadedDocuments ≠ [])
    (h3 : s.selectedDocuments ≠ []) :
    (sendMessage now s r).2
      = [Event.append (userMessage now s),
         Event.request (queryRequest s),
         Event.append (queryResponseMessage now r)]
  ∧ (sendMessage now s r).1.messages
      = s.messages ++ [userMessage now s, queryResponseMessage now r]
  ∧ (userMessage now s).type = .user
  ∧ (queryResponseMessage now r).type ≠ .user := by
  have hb2 : (s.uploadedDocuments.length == 0) = false := by
    simp [List.length_eq_zero]
    exact h2
  have hb3 : (s.selectedDocuments.length == 0) = false := by
    simp [List.length_eq_zero]
    exact h3
  refine ⟨?_, ?_, rfl, ?_⟩
  · simp [sendMessage, h1, hb2, hb3]
  · simp [sendMessage, h1, hb2, hb3]
  · cases r with
    | ok resp => simp [queryResponseMessage]
    | error e => simp [queryResponseMessage]

/-- C8 (witness): the trace order at a concrete ready state. -/
theorem sendMessage_user_entry_first_witness :
    (sendMessage 9 stReady (.error ⟨some "detail", "msg"⟩)).2
      = [Event.append (userMessage 9 stReady),
         Event.request (queryRequest stReady),
         Event.append (queryResponseMessage 9 (.error ⟨some "detail", "msg"⟩))] :=
  (sendMessage_user_entry_first 9 stReady (.error ⟨some "detail", "msg"⟩)
    (by decide) (by decide) (by decide)).1

end ChatWithDocs

namespace ChatWithDocs

/-- C3 (counterexample): `loadUserDocuments` never prunes the selection
set, so a list refresh that drops a selected document breaks the
invariant — starting from a state where it holds, a refresh returning an
empty list leaves `"d1"` selected while listing no documents. -/
theorem selectionInvariant_refresh_cex :
    selectionInvariant stReady
  ∧ (loadUserDocuments stReady (.ok ⟨some []⟩)).1.selectedDocuments = ["d1"]
  ∧ ¬ selectionInvariant (loadUserDocuments stReady (.ok ⟨some []⟩)).1 := by
  refine ⟨by decide, rfl, by decide⟩

/-- C3 (amended): toggling a listed identifier, select-all, deselect-all,
upload, and delete-all (either outcome) preserve the selection invariant,
and a successful delete-all clears the selection wholesale; the list
refresh, however, leaves the selection set unchanged — it does not prune
it — so a refresh that drops a selected document can break the invariant. -/
theorem selection_members_listed (now : Nat) (s : ClientState)
    (files : List FileInfo) (ru : List (Except BackendError UploadResponse))
    (rl : Except BackendError ListResponse) (e : BackendError) (docId : String) :
    (selectionInvariant s → docId ∈ listedKeys s →
        selectionInvariant (toggleDocumentSelection docId s))
  ∧ selectionInvariant (selectAllDocuments s)
  ∧ selectionInvariant (deselectAllDocuments s)
  ∧ (selectionInvariant s → selectionInvariant (onDrop now s files ru).1)
  ∧ selectionInvariant (deleteDocument now s (.ok ())).1
  ∧ (deleteDocument now s (.ok ())).1.selectedDocuments = []
  ∧ (selectionInvariant s → selectionInvariant (deleteDocument now s (.error e)).1)
  ∧ (loadUserDocuments s rl).1.selectedDocuments = s.selectedDocuments := by
  refine ⟨?_, ?_, ?_, ?_, ?_, rfl, ?_, ?_⟩
  · intro hinv hk id hid
    rw [toggleDocumentSelection_selected] at hid
    by_cases hmem : docId ∈ s.selectedDocuments
    · rw [if_pos hmem] at hid
      exact hinv id (List.mem_filter.mp hid).1
    · rw [if_neg hmem] at hid
      rcases List.mem_append.mp hid with h | h
      · exact hinv id h
      · rw [List.mem_singleton.mp h]
        exact hk
  · intro id hid
    exact hid
  · intro id hid
    exact absurd hid (List.not_mem_nil id)
  · intro hinv
    rcases h : firstUploadError ru with _ | e0
    · intro id hid
      rw [(by simp [onDrop, h] :
        (onDrop now s files ru).1.selectedDocuments = s.selectedDocuments)] at hid
      have hks : id ∈ listedKeys s := hinv id hid
      unfold listedKeys at hks ⊢
      rw [(by simp [onDrop, h] :
        (onDrop now s files ru).1.uploadedDocuments
          = s.uploadedDocuments ++ List.zipWith mkUploadDoc files (uploadOks ru)),
        List.filterMap_append]
      exact List.mem_append.mpr (Or.inl hks)
    · intro id hid
      rw [(by simp [onDrop, h] :
        (onDrop now s files ru).1.selectedDocuments = s.selectedDocuments)] at hid
      have hks : id ∈ listedKeys s := hinv id hid
      unfold listedKeys at hks ⊢
      rw [(by simp [onDrop, h] :
        (onDrop now s files ru).1.uploadedDocuments = s.uploadedDocuments)]
      exact hks
  · intro id hid
    exact absurd hid (List.not_mem_nil id)
  · intro hinv id hid
    exact hinv id hid
  · cases rl with
    | ok resp => rfl
    | error e0 => rfl

/-- C3 (witness): the preserving operations at a concrete state where the
invariant holds. -/
theorem selection_members_listed_witness :
    selectionInvariant (toggleDocumentSelection "d1" stReady)
  ∧ selectionInvariant (onDrop 0 stReady [] []).1
  ∧ selectionInvariant (deleteDocument 0 stReady (.error ⟨none, "e"⟩)).1 := by
  have h := selection_members_listed 0 stReady [] [] (.ok ⟨some []⟩) ⟨none, "e"⟩ "d1"
  exact ⟨h.1 (by decide) (by decide), h.2.2.2.1 (by decide),
    h.2.2.2.2.2.2.1 (by decide)⟩

/-- C10 (witness): involution and the two single-toggle shapes at a
concrete state. -/
theorem toggleDocumentSelection_involution_witness :
    ("d1" ∈ (toggleDocumentSelection "d1" (toggleDocumentSelection "d1" stReady)).selectedDocuments
        ↔ "d1" ∈ stReady.selectedDocuments)
  ∧ (toggleDocumentSelection "zz" stReady).selectedDocuments
      = stReady.selectedDocuments ++ ["zz"]
  ∧ (toggleDocumentSelection "d1" stReady).selectedDocuments
      = stReady.selectedDocuments.filter fun i => i != "d1" :=
  ⟨(toggleDocumentSelection_involution stReady "d1").1 "d1",
   (toggleDocumentSelection_involution stReady "zz").2.1 (by decide),
   (toggleDocumentSelection_involution stReady "d1").2.2 (by decide)⟩

end ChatWithDocs
